import Mathlib

/-!
Verification of the kundli (Vedic birth-chart) calculation module
(`src/lib/kundliCalculations.ts`) against its specification.

Embedding conventions:
* JavaScript numbers are embedded as exact rationals (`ℚ`).  Every IEEE
  double is a rational number, so quantifying over `ℚ` covers every value
  the floating-point code can produce; arithmetic is idealized as exact.
* `Math.floor` is `Int.floor`; the JS `%` operator (truncated remainder)
  is modelled explicitly (`jsModQ` on rationals, `jsRemInt` on integers).
* The three genuinely transcendental computations of the source
  (`calcAscendant` via `atan2`, and `calcMoonPosition` via its sine
  series) produce opaque real values; their outputs are taken as
  parameters (`TransInputs`), and theorems about the chart quantify over
  them, which covers every birth input.
* For real `x`, `mod2pi (x * RADS) * DEGS = mod360 x` exactly (scaling a
  truncated remainder by the positive constant `π/180` commutes with the
  reduction), so the source's occurrences of that composite on otherwise
  rational arguments are embedded as `mod360`.
-/

/-- Source `_abs`: truncation toward zero (`Math.floor` for nonnegative,
`Math.ceil` for negative arguments). -/
def jsTrunc (x : ℚ) : ℚ :=
  if 0 ≤ x then (⌊x⌋ : ℚ) else (⌈x⌉ : ℚ)

/-- Source `mod360`: reduce a degree value into `[0, 360)` (the source's
local `a` is inlined). -/
def mod360 (x : ℚ) : ℚ :=
  if 360 * (x / 360 - jsTrunc (x / 360)) < 0 then
    360 * (x / 360 - jsTrunc (x / 360)) + 360
  else 360 * (x / 360 - jsTrunc (x / 360))

/-- The JS `%` operator on numbers: truncated remainder. -/
def jsModQ (a b : ℚ) : ℚ :=
  a - b * jsTrunc (a / b)

/-- The JS `%` operator on integer-valued numbers: remainder with the sign
of the dividend. -/
def jsRemInt (a b : ℤ) : ℤ :=
  a.sign * (a.natAbs % b.natAbs)

/-- Source `BirthData`: the `Date` is decomposed into the year, month
(1-based, as `getMonth() + 1`), and day-of-month the source reads off it. -/
structure BirthData where
  name : String
  year : ℤ
  month : ℤ
  day : ℤ
  hours : ℚ
  minutes : ℚ
  tz : ℚ
  lat : ℚ
  lon : ℚ

/-- Planet index constants from the source
(`AS = 0, SU = 1, ..., RA = 8, KE = 9`). -/
def AS : ℤ := 0
def SU : ℤ := 1
def MO : ℤ := 2
def MA : ℤ := 3
def ME : ℤ := 4
def JU : ℤ := 5
def VE : ℤ := 6
def SA : ℤ := 7
def RA : ℤ := 8
def KE : ℤ := 9

/-- Source `zodiacNames` (index 0 is a padding empty string). -/
def zodiacNames : List String :=
  ["", "Aries", "Taurus", "Gemini", "Cancer", "Leo", "Virgo",
   "Libra", "Scorpio", "Sagittarius", "Capricorn", "Aquarius", "Pisces"]

/-- The branch selection of source `calcDeltaT` as a function of the
shifted year `y = year + 0.5/12`, with `c` and `t` (the source's local
bindings) inlined. -/
def deltaTBranch (y : ℚ) : ℚ :=
  if 2005 < y ∧ y ≤ 2050 then
    62.92 + 0.32217 * (y - 2000) + 0.005589 * (y - 2000) * (y - 2000)
      + -0.000012932 * (y - 1955) ^ 2
  else if 1986 < y ∧ y ≤ 2005 then
    3.86 + 0.3345 * (y - 2000) - 0.060374 * (y - 2000) * (y - 2000)
      + 0.0017275 * (y - 2000) * (y - 2000) * (y - 2000)
      + 0.000651814 * (y - 2000) * (y - 2000) * (y - 2000) * (y - 2000)
      + 0.00002373599 * (y - 2000) * (y - 2000) * (y - 2000) * (y - 2000) * (y - 2000)
  else 0

/-- Source `calcDeltaT`: piecewise polynomial Delta-T model. -/
def calcDeltaT (year : ℚ) : ℚ :=
  deltaTBranch (year + 0.5 / 12)

/-- Source `calcAyanamsa` (the local named `b` is renamed `e` here to avoid
clashing with the birth-data binder). -/
def calcAyanamsa (bd : BirthData) : ℚ :=
  let yy : ℚ := bd.year
  let mm : ℚ := bd.month
  let dd : ℚ := bd.day
  let d : ℚ := if bd.year < 100 then 10 else 1000
  let c := yy * 1.0 / d
  let a := -6.92416 + 16.90709 * c - 0.757371 * c * c
  let e := (mm + dd / 30) * 1.1574074 / d
  a + e

/-- Source `calcDayNumber`: continuous day count from the epoch, with the
Gregorian-reform correction and fractional time of day. -/
def calcDayNumber (bd : BirthData) : ℚ :=
  let yy : ℤ := if bd.month < 3 then bd.year - 1 else bd.year
  let mm : ℤ := if bd.month < 3 then bd.month + 12 else bd.month
  let dd : ℤ := bd.day
  let b : ℤ :=
    if yy * 10000 + mm * 100 + dd > 15821004 then
      let a : ℤ := ⌊(0.01 : ℚ) * yy⌋
      2 - a + ⌊(0.25 : ℚ) * a⌋
    else 0
  let c : ℤ := ⌊(365.25 : ℚ) * yy⌋
  let d : ℤ := ⌊(30.6001 : ℚ) * (mm + 1)⌋
  (b : ℚ) + c + d - 730550.5 + dd + ((bd.hours - bd.tz) + bd.minutes / 60) / 24

/-- The value `j + fc` that source `calcJulianDate` computes before its
final 7-decimal rounding step. -/
def julianPreRound (bd : BirthData) : ℚ :=
  let yy := bd.year
  let mm := bd.month
  let dd := bd.day
  let jy : ℤ := if mm > 2 then yy else yy - 1
  let jm : ℤ := if mm > 2 then mm + 1 else mm + 13
  let j0 : ℤ := ⌊(365.25 : ℚ) * jy⌋ + ⌊(30.6001 : ℚ) * jm⌋ + dd + 1720995
  let j1 : ℤ :=
    if dd + 31 * (mm + 12 * yy) ≥ 588829 then
      let a : ℤ := ⌊(0.01 : ℚ) * jy⌋
      j0 + (2 - a + ⌊(0.25 : ℚ) * a⌋)
    else j0
  let df0 : ℚ := (bd.hours - bd.tz) / 24 - 0.5
  let df : ℚ := if df0 < 0 then df0 + 1 else df0
  let j2 : ℤ := if df0 < 0 then j1 - 1 else j1
  let dT := calcDeltaT bd.year
  let fc := df + (bd.minutes + dT / 60) / 60 / 24
  (j2 : ℚ) + fc

/-- The rounding step of source `calcJulianDate` on the scaled value
`v = (j + fc) * 10^7`: floor, bump by one only when the remainder strictly
exceeds one half, and scale back by `0.0000001`. -/
def round7 (v : ℚ) : ℚ :=
  if v - (⌊v⌋ : ℚ) > 0.5 then ((⌊v⌋ + 1 : ℤ) : ℚ) * 0.0000001
  else ((⌊v⌋ : ℤ) : ℚ) * 0.0000001

/-- Source `calcJulianDate`: the pre-round value scaled by `10^7` and
rounded by the strict-half rule. -/
def calcJulianDate (bd : BirthData) : ℚ :=
  round7 (julianPreRound bd * 10000000)

/-- The band selection of source `calcZodiac`, as a function of the
already-normalized degree `d = mod360 deg`. -/
def zodiacBand (d : ℚ) : ℕ :=
  if 0 ≤ d ∧ d ≤ 30 then 1
  else if 30 < d ∧ d ≤ 60 then 2
  else if 60 < d ∧ d ≤ 90 then 3
  else if 90 < d ∧ d ≤ 120 then 4
  else if 120 < d ∧ d ≤ 150 then 5
  else if 150 < d ∧ d ≤ 180 then 6
  else if 180 < d ∧ d ≤ 210 then 7
  else if 210 < d ∧ d ≤ 240 then 8
  else if 240 < d ∧ d ≤ 270 then 9
  else if 270 < d ∧ d ≤ 300 then 10
  else if 300 < d ∧ d ≤ 330 then 11
  else 12

/-- Source `calcZodiac`: bucket a degree into the 12 signs after
normalizing it with `mod360`. -/
def calcZodiac (deg : ℚ) : ℕ :=
  zodiacBand (mod360 deg)

/-- Source nakshatra lookup table: (name, lord) pairs, 27 entries. -/
def nakshatras : List (String × String) :=
  [("Ashvini", "Ke"), ("Bharani", "Ve"), ("Krittika", "Su"),
   ("Rohini", "Mo"), ("Mrigashir", "Ma"), ("Ardra", "Ra"),
   ("Punarvasu", "Ju"), ("Pushya", "Sa"), ("Ashlesha", "Me"),
   ("Magha", "Ke"), ("P.Phalg", "Ve"), ("U.Phalg", "Su"),
   ("Hasta", "Mo"), ("Chitra", "Ma"), ("Svati", "Ra"),
   ("Vishakha", "Ju"), ("Anuradha", "Sa"), ("Jyeshtha", "Me"),
   ("Mula", "Ke"), ("P.Shadha", "Ve"), ("U.Shadha", "Su"),
   ("Sravana", "Mo"), ("Dhanista", "Ma"), ("Shatabhi", "Ra"),
   ("P.Bhadra", "Ju"), ("U.Bhadra", "Sa"), ("Revati", "Me")]

/-- JS array subscripting with an integer index: a negative index (or an
index past the end) reads `undefined`, modelled as `none`. -/
def nakshatraEntry (i : ℤ) : Option (String × String) :=
  if i < 0 then none else nakshatras.get? i.toNat

/-- The `nakshatraIndex` computed inside source `calcNakshatra`:
`Math.floor(d / 13.3333) % 27` after the negative-degree shift. -/
def nakIndex (deg : ℚ) : ℤ :=
  jsRemInt ⌊(if deg < 0 then deg + 360 else deg) / 13.3333⌋ 27

/-- Result record of source `calcNakshatra`; the name and lord are
`Option`s because a negative index reads `undefined` off the table. -/
structure NakshatraInfo where
  name : Option String
  lord : Option String
  pada : ℤ
deriving DecidableEq

/-- The pada computed inside source `calcNakshatra`:
`Math.min(Math.floor((d % 13.3333) / 3.3333) + 1, 4)` after the
negative-degree shift. -/
def nakPada (deg : ℚ) : ℤ :=
  min (⌊jsModQ (if deg < 0 then deg + 360 else deg) 13.3333 / 3.3333⌋ + 1) 4

/-- Source `calcNakshatra`, assembled from its index and pada parts. -/
def calcNakshatra (deg : ℚ) : NakshatraInfo :=
  ⟨(nakshatraEntry (nakIndex deg)).map Prod.fst,
   (nakshatraEntry (nakIndex deg)).map Prod.snd,
   nakPada deg⟩

/-- The mean-element table of source `calcPlanetPosition`: `elements[planet]`
is defined exactly for the seven classical bodies. -/
def meanElements (planet : ℤ) : Option (ℚ × ℚ) :=
  if planet = SU then some (280.46457, 0.98564736)
  else if planet = MO then some (218.316, 13.176396)
  else if planet = MA then some (355.4533, 0.524071)
  else if planet = ME then some (252.251, 4.09233)
  else if planet = JU then some (34.4044, 0.08309)
  else if planet = VE then some (181.9798, 1.60214)
  else if planet = SA then some (49.9443, 0.03346)
  else none

/-- Source `calcPlanetPosition`: mean-element linear model, returning 0 when
the planet index has no tabulated elements. -/
def calcPlanetPosition (planet : ℤ) (dn : ℚ) : ℚ :=
  match meanElements planet with
  | some el => mod360 (el.1 + el.2 * dn)
  | none => 0

/-- Source `calcMoonAscendingNode`.  The source computes
`mod2pi(θ * RADS) * DEGS - ay`; since scaling by the positive constant
`π/180` commutes with truncated-remainder reduction, that composite equals
`mod360 θ - ay` exactly, which is how it is embedded. -/
def calcMoonAscendingNode (bd : BirthData) : ℚ :=
  let jd := calcJulianDate bd
  let T := (jd - 2415020.5) / 36525
  let ay := calcAyanamsa bd
  let n := mod360 (259.183275 - 1800 * T - 134.142008 * T + 0.002078 * T * T)
  n - ay

/-- Outputs of the two transcendental computations of the source, taken as
parameters of the chart: `ascRaw` is the value of `calcAscendant`
(`atan2`-based) and `moonRaw` the value of `calcMoonPosition` (sine
series).  Quantifying over all rationals covers every value the
floating-point implementations can return. -/
structure TransInputs where
  ascRaw : ℚ
  moonRaw : ℚ

/-- Source `Planet` record. -/
structure Planet where
  name : String
  index : ℤ
  ra : ℚ
  zodiac : String
  degree : ℚ
  rasizn : ℕ
  navzn : ℕ
  nakshatra : Option String
  nakshatraLord : Option String
  nakshatraPada : ℤ
deriving DecidableEq

instance : Inhabited Planet :=
  ⟨⟨"", 0, 0, "", 0, 0, 0, none, none, 0⟩⟩

/-- The `navzn` computation `calcZodiac(mod2pi(deg * 9 * RADS) * DEGS)`;
the `mod2pi`/unit-conversion composite is `mod360 (deg * 9)` exactly. -/
def navamsaZn (deg : ℚ) : ℕ :=
  calcZodiac (mod360 (deg * 9))

/-- The ascendant degree `calcAscendant(birthData) - ay` used by
`calculateChart`, with the transcendental `calcAscendant` value taken from
the parameters. -/
def ascDeg (bd : BirthData) (tr : TransInputs) : ℚ :=
  tr.ascRaw - calcAyanamsa bd

/-- The rashi (house-to-sign) loop of source `calculateChart`, lines
275-280: a fold carrying the wrap counter `x` (initialized to 1). -/
def calcRashis (ascZodiac : ℕ) : List ℕ :=
  ((List.range 12).foldl
    (fun acc i =>
      if ascZodiac + i > 12 then (acc.1 ++ [acc.2], acc.2 + 1)
      else (acc.1 ++ [ascZodiac + i], acc.2))
    (([] : List ℕ), 1)).1

/-- The repeated per-body block of `calculateChart` (Sun through Ketu):
build a `Planet` from a symbolic name, index, and ayanamsa-corrected,
normalized degree. -/
def mkBodyPlanet (nm : String) (idx : ℤ) (deg : ℚ) : Planet :=
  ⟨nm, idx, deg, zodiacNames.getD (calcZodiac deg) "", jsModQ deg 30,
   calcZodiac deg, navamsaZn deg, (calcNakshatra deg).name,
   (calcNakshatra deg).lord, (calcNakshatra deg).pada⟩

/-- The local `sunDeg` of `calculateChart`. -/
def sunDeg (bd : BirthData) : ℚ :=
  mod360 (calcPlanetPosition SU (calcDayNumber bd) - calcAyanamsa bd)

/-- The local `moonDeg` of `calculateChart`; `calcMoonPosition`'s
transcendental output is `tr.moonRaw`. -/
def moonDeg (bd : BirthData) (tr : TransInputs) : ℚ :=
  mod360 (tr.moonRaw - calcAyanamsa bd)

/-- The local `marsDeg` of `calculateChart`. -/
def marsDeg (bd : BirthData) : ℚ :=
  mod360 (calcPlanetPosition MA (calcDayNumber bd) - calcAyanamsa bd)

/-- The local `mercDeg` of `calculateChart`. -/
def mercDeg (bd : BirthData) : ℚ :=
  mod360 (calcPlanetPosition ME (calcDayNumber bd) - calcAyanamsa bd)

/-- The local `jupDeg` of `calculateChart`. -/
def jupDeg (bd : BirthData) : ℚ :=
  mod360 (calcPlanetPosition JU (calcDayNumber bd) - calcAyanamsa bd)

/-- The local `venDeg` of `calculateChart`. -/
def venDeg (bd : BirthData) : ℚ :=
  mod360 (calcPlanetPosition VE (calcDayNumber bd) - calcAyanamsa bd)

/-- The local `satDeg` of `calculateChart`. -/
def satDeg (bd : BirthData) : ℚ :=
  mod360 (calcPlanetPosition SA (calcDayNumber bd) - calcAyanamsa bd)

/-- The local `rahuDeg` of `calculateChart`. -/
def rahuDeg (bd : BirthData) : ℚ :=
  mod360 (calcMoonAscendingNode bd)

/-- The local `ketuDeg` of `calculateChart`: always derived from Rahu. -/
def ketuDeg (bd : BirthData) : ℚ :=
  mod360 (rahuDeg bd + 180)

/-- The Ascendant entry (`planets[AS]`) of `calculateChart`: note the
source computes `rasizn` from the unnormalized `ascDeg` and everything
else from `mod360 ascDeg`. -/
def ascPlanet (bd : BirthData) (tr : TransInputs) : Planet :=
  ⟨"As", AS, mod360 (ascDeg bd tr), zodiacNames.getD (calcZodiac (ascDeg bd tr)) "",
   jsModQ (mod360 (ascDeg bd tr)) 30, calcZodiac (ascDeg bd tr),
   navamsaZn (mod360 (ascDeg bd tr)), (calcNakshatra (mod360 (ascDeg bd tr))).name,
   (calcNakshatra (mod360 (ascDeg bd tr))).lord, (calcNakshatra (mod360 (ascDeg bd tr))).pada⟩

/-- The 10-element planets array built by `calculateChart` (slots
`AS, SU, MO, MA, ME, JU, VE, SA, RA, KE` in order). -/
def chartPlanets (bd : BirthData) (tr : TransInputs) : List Planet :=
  [ascPlanet bd tr,
   mkBodyPlanet "Su" SU (sunDeg bd),
   mkBodyPlanet "Mo" MO (moonDeg bd tr),
   mkBodyPlanet "Ma" MA (marsDeg bd),
   mkBodyPlanet "Me" ME (mercDeg bd),
   mkBodyPlanet "Ju" JU (jupDeg bd),
   mkBodyPlanet "Ve" VE (venDeg bd),
   mkBodyPlanet "Sa" SA (satDeg bd),
   mkBodyPlanet "Ra" RA (rahuDeg bd),
   mkBodyPlanet "Ke" KE (ketuDeg bd)]

/-- The house-to-sign array of `calculateChart`. -/
def chartRashis (bd : BirthData) (tr : TransInputs) : List ℕ :=
  calcRashis (calcZodiac (ascDeg bd tr))

/-- The house-to-bodies arrays of `calculateChart`, lines 444-452: house `i`
collects, in planet order, the names of the planets whose `rasizn` equals
`rashis[i]`. -/
def chartHouses (bd : BirthData) (tr : TransInputs) : List (List String) :=
  (chartRashis bd tr).map
    (fun r => ((chartPlanets bd tr).filter (fun p => r == p.rasizn)).map
      (fun p => p.name))

/-- Result record of source `calculateChart`. -/
structure Chart where
  planets : List Planet
  rashis : List ℕ
  houses : List (List String)

/-- Source `calculateChart`. -/
def calculateChart (bd : BirthData) (tr : TransInputs) : Chart :=
  ⟨chartPlanets bd tr, chartRashis bd tr, chartHouses bd tr⟩

/-- JS `parseInt` on an already-whitespace-stripped string: an optional
sign followed by a maximal run of decimal digits; `NaN` (here `none`) when
no digit is found.  (The hexadecimal `0x` form cannot arise from the
callers modelled here.) -/
def parseIntJS (s : String) : Option ℤ :=
  let cs := s.toList
  let signAndRest : ℤ × List Char :=
    match cs with
    | '-' :: t => (-1, t)
    | '+' :: t => (1, t)
    | t => (1, t)
  let ds := signAndRest.2.takeWhile Char.isDigit
  if ds.isEmpty then none
  else some (signAndRest.1 *
    (ds.foldl (fun acc c => 10 * acc + (c.toNat - '0'.toNat)) 0 : ℕ))

/-- JS `parseFloat` on an already-whitespace-stripped string: an optional
sign, an optional integer part, and an optional `.`-separated fractional
part; `NaN` (here `none`) when no digit is found at all. -/
def parseFloatJS (s : String) : Option ℚ :=
  let cs := s.toList
  let signAndRest : ℚ × List Char :=
    match cs with
    | '-' :: t => (-1, t)
    | '+' :: t => (1, t)
    | t => (1, t)
  let intDigits := signAndRest.2.takeWhile Char.isDigit
  let rest := signAndRest.2.dropWhile Char.isDigit
  let fracDigits : List Char :=
    match rest with
    | '.' :: t => t.takeWhile Char.isDigit
    | _ => []
  if intDigits.isEmpty ∧ fracDigits.isEmpty then none
  else
    let ip : ℚ := (intDigits.foldl (fun acc c => 10 * acc + (c.toNat - '0'.toNat)) 0 : ℕ)
    let fp : ℚ := (fracDigits.foldl (fun acc c => 10 * acc + (c.toNat - '0'.toNat)) 0 : ℕ)
    some (signAndRest.1 * (ip + fp / (10 : ℚ) ^ fracDigits.length))

/-- The JS idiom `x || 0`: `NaN` (and `0` itself) collapse to `0`. -/
def jsOrZero (x : Option ℚ) : ℚ :=
  match x with
  | none => 0
  | some v => if v = 0 then 0 else v

/-- The preprocessing `input.replace(/\s+/g, "").toUpperCase()` shared by
both coordinate parsers. -/
def stripSpacesUpper (s : String) : String :=
  ⟨(s.toList.filter (fun c => !c.isWhitespace)).map Char.toUpper⟩

/-- Source `parseLatitude`.  A `NaN` result (unparseable degree component
on the hemisphere path) is `none`; every other outcome is `some`. -/
def parseLatitude (input : String) : Option ℚ :=
  let tmp := stripSpacesUpper input
  if tmp.contains 'N' then
    let parts := tmp.splitOn "N"
    (parseIntJS (parts.getD 0 "")).map
      (fun d => (d : ℚ) + jsOrZero ((parseIntJS (parts.getD 1 "")).map Int.cast) / 60)
  else if tmp.contains 'S' then
    let parts := tmp.splitOn "S"
    (parseIntJS (parts.getD 0 "")).map
      (fun d => -((d : ℚ) + jsOrZero ((parseIntJS (parts.getD 1 "")).map Int.cast) / 60))
  else some (jsOrZero (parseFloatJS input))

/-- Source `parseLongitude`: as `parseLatitude` with `E`/`W` hemispheres. -/
def parseLongitude (input : String) : Option ℚ :=
  let tmp := stripSpacesUpper input
  if tmp.contains 'E' then
    let parts := tmp.splitOn "E"
    (parseIntJS (parts.getD 0 "")).map
      (fun d => (d : ℚ) + jsOrZero ((parseIntJS (parts.getD 1 "")).map Int.cast) / 60)
  else if tmp.contains 'W' then
    let parts := tmp.splitOn "W"
    (parseIntJS (parts.getD 0 "")).map
      (fun d => -((d : ℚ) + jsOrZero ((parseIntJS (parts.getD 1 "")).map Int.cast) / 60))
  else some (jsOrZero (parseFloatJS input))

/-- Sample birth data for concrete witnesses. -/
def sampleBirth : BirthData := ⟨"w", 1900, 6, 15, 12, 0, 0, 0, 0⟩

/-- Sample transcendental-stage outputs for concrete witnesses. -/
def sampleTrans : TransInputs := ⟨100, 200⟩

/-- Birth data whose pre-rounding Julian value lands exactly on a
half at the 8th decimal digit (timezone `-0.0000012` hours). -/
def halfBoundaryBirth : BirthData := ⟨"edge", 1900, 6, 15, 12, 0, -3/2500000, 0, 0⟩

/-- Modelled from the spec: the claimed rounding rule for `calcJulianDate`
— round to 7 decimal places with round-half-up at the 8th digit (an
8th-digit remainder of exactly one half rounds the 7th decimal up). -/
def roundHalfUp7 (v : ℚ) : ℚ :=
  (⌊v * 10000000 + 1/2⌋ : ℚ) * 0.0000001

theorem mod360_eq_fract (x : ℚ) : mod360 x = 360 * Int.fract (x / 360) := by
  unfold mod360 jsTrunc
  by_cases h : 0 ≤ x / 360
  · rw [if_pos h]
    have h0 : (0:ℚ) ≤ 360 * (x / 360 - (⌊x / 360⌋ : ℚ)) := by
      have := Int.fract_nonneg (x / 360)
      rw [← Int.self_sub_floor] at *
      linarith
    rw [if_neg (not_lt.mpr h0), ← Int.self_sub_floor]
  · rw [if_neg h]
    by_cases hz : Int.fract (x / 360) = 0
    · have hfloor : ((⌊x / 360⌋ : ℚ)) = x / 360 := by
        have hsf := Int.self_sub_floor (x / 360)
        rw [hz] at hsf
        linarith
      have hceil : ⌈x / 360⌉ = ⌊x / 360⌋ := by
        conv_lhs => rw [← hfloor]
        exact Int.ceil_intCast _
      rw [hceil, hz, hfloor]
      simp
    · have hfpos : 0 < Int.fract (x / 360) :=
        lt_of_le_of_ne (Int.fract_nonneg _) (Ne.symm hz)
      have hceil : ⌈x / 360⌉ = ⌊x / 360⌋ + 1 := by
        rw [Int.ceil_eq_iff]
        constructor
        · push_cast
          have := Int.self_sub_floor (x / 360)
          linarith
        · push_cast
          have := le_of_lt (Int.lt_floor_add_one (x / 360))
          linarith
      have hneg : 360 * (x / 360 - (⌈x / 360⌉ : ℚ)) < 0 := by
        rw [hceil]
        push_cast
        have h1 := Int.fract_lt_one (x / 360)
        have h2 := Int.self_sub_floor (x / 360)
        nlinarith
      rw [if_pos hneg, hceil]
      push_cast
      have h2 := Int.self_sub_floor (x / 360)
      nlinarith [Int.self_sub_floor (x / 360)]

theorem mod360_nonneg (x : ℚ) : 0 ≤ mod360 x := by
  rw [mod360_eq_fract]
  have := Int.fract_nonneg (x / 360)
  linarith

theorem mod360_lt (x : ℚ) : mod360 x < 360 := by
  rw [mod360_eq_fract]
  have := Int.fract_lt_one (x / 360)
  linarith

theorem mod360_period (x : ℚ) (k : ℤ) : mod360 (x + 360 * k) = mod360 x := by
  rw [mod360_eq_fract, mod360_eq_fract]
  have h : (x + 360 * k) / 360 = x / 360 + k := by
    field_simp
    ring
  rw [h, Int.fract_add_int]

set_option maxHeartbeats 1600000 in
theorem zodiacBand_bounds (d : ℚ) : 1 ≤ zodiacBand d ∧ zodiacBand d ≤ 12 := by
  unfold zodiacBand
  split_ifs <;> omega

theorem calcZodiac_bounds (q : ℚ) : 1 ≤ calcZodiac q ∧ calcZodiac q ≤ 12 :=
  zodiacBand_bounds (mod360 q)

theorem calcZodiac_mem_Icc (q : ℚ) : calcZodiac q ∈ Finset.Icc 1 12 :=
  Finset.mem_Icc.mpr (calcZodiac_bounds q)

theorem calcZodiac_period (L : ℚ) (k : ℤ) : calcZodiac (L + 360 * k) = calcZodiac L := by
  unfold calcZodiac
  rw [mod360_period]

theorem calcRashis_formula : ∀ a ∈ Finset.Icc 1 12,
    (∀ i < 12, (calcRashis a).getD i 0 = ((a + i - 1) % 12) + 1)
    ∧ (calcRashis a).Perm ((List.range 12).map (fun k => k + 1))
    ∧ (calcRashis a).getD 0 0 = a := by decide

theorem calcRashis_count_one : ∀ a ∈ Finset.Icc 1 12, ∀ z ∈ Finset.Icc 1 12,
    (calcRashis a).count z = 1 := by decide

/-- Claim C1: for every birth input (and every value of the transcendental
ascendant stage), house `i` of the chart's `rashis` array holds sign
`((ascSign + i - 1) mod 12) + 1` where `ascSign` is the ascendant's sign
number; the array is a permutation of `1..12` and its first element is the
ascendant's sign number. -/
theorem claim1_house_rotation (bd : BirthData) (tr : TransInputs) :
    (∀ i, i < 12 → (calculateChart bd tr).rashis.getD i 0
        = ((calcZodiac (ascDeg bd tr) + i - 1) % 12) + 1)
    ∧ (calculateChart bd tr).rashis.Perm ((List.range 12).map (fun k => k + 1))
    ∧ (calculateChart bd tr).rashis.getD 0 0 = calcZodiac (ascDeg bd tr) := by
  have h := calcRashis_formula _ (calcZodiac_mem_Icc (ascDeg bd tr))
  simpa [calculateChart, chartRashis] using h

/-- Witness for C1 at a concrete input and house index. -/
theorem claim1_house_rotation_witness :
    (calculateChart sampleBirth sampleTrans).rashis.getD 3 0
      = ((calcZodiac (ascDeg sampleBirth sampleTrans) + 3 - 1) % 12) + 1 :=
  (claim1_house_rotation sampleBirth sampleTrans).1 3 (by decide)

/-- Claim C2: in every chart, the Ketu slot's longitude is exactly
`mod360` of the Rahu slot's longitude plus 180; Ketu is derived from Rahu
for every input rather than computed independently. -/
theorem claim2_ketu_from_rahu (bd : BirthData) (tr : TransInputs) :
    ((calculateChart bd tr).planets.getD 9 default).ra
      = mod360 (((calculateChart bd tr).planets.getD 8 default).ra + 180) := by
  simp [calculateChart, chartPlanets, mkBodyPlanet, ketuDeg]

/-- Counterexample to C3 as stated: `calcZodiac 360` is `1`, not `12`,
because `mod360` first sends `360` to `0`. -/
theorem claim3_counterexample : calcZodiac (360 : ℚ) ≠ 12 := by
  with_unfolding_all decide

/-- Claim C3 (amended): `calcZodiac 0 = 1`, `calcZodiac 30 = 1`,
`calcZodiac 30.0001 = 2`, and a boundary degree `n × 30` belongs to band
`n` for `n` in `1..11`; but `calcZodiac 360 = 1` (not `12`), since `360`
normalizes to `0` before bucketing. -/
theorem claim3_zodiac_boundaries :
    calcZodiac (0 : ℚ) = 1 ∧ calcZodiac (30 : ℚ) = 1
    ∧ calcZodiac (30.0001 : ℚ) = 2 ∧ calcZodiac (360 : ℚ) = 1
    ∧ ∀ n ∈ Finset.Icc (1 : ℕ) 11, calcZodiac ((30 : ℚ) * n) = n := by
  with_unfolding_all decide

/-- Witness for C3's amended boundary clause at `n = 6`. -/
theorem claim3_zodiac_boundaries_witness : calcZodiac ((30 : ℚ) * (6 : ℕ)) = 6 :=
  claim3_zodiac_boundaries.2.2.2.2 6 (by decide)

/-- Claim C4: `calcZodiac` always lands in `[1, 12]` and is periodic with
period 360 (any integer multiple). -/
theorem claim4_zodiac_range_period (L : ℚ) (k : ℤ) :
    (1 ≤ calcZodiac L ∧ calcZodiac L ≤ 12)
    ∧ calcZodiac (L + 360 * k) = calcZodiac L :=
  ⟨calcZodiac_bounds L, calcZodiac_period L k⟩

/-- Claim C6: `calcDeltaT` returns 0 for every (integer) year outside the
modeled 1986-2050 range; in particular `calcDeltaT 1900 = 0`, while 2030
satisfies the 2005-2050 branch guard and `calcDeltaT 2030` is positive. -/
theorem claim6_deltaT_range (year : ℤ) (h : year < 1986 ∨ 2050 < year) :
    calcDeltaT year = 0
    ∧ calcDeltaT 1900 = 0
    ∧ (2005 < (2030 : ℚ) + 0.5 / 12 ∧ (2030 : ℚ) + 0.5 / 12 ≤ 2050)
    ∧ 0 < calcDeltaT 2030 := by
  refine ⟨?_, by with_unfolding_all decide, by norm_num, by with_unfolding_all decide⟩
  have hy : ((year : ℚ) ≤ 1985) ∨ ((2051 : ℚ) ≤ (year : ℚ)) := by
    rcases h with h | h
    · left; exact_mod_cast (by omega : year ≤ 1985)
    · right; exact_mod_cast (by omega : (2051 : ℤ) ≤ year)
  unfold calcDeltaT deltaTBranch
  split_ifs with h1 h2
  · exfalso
    obtain ⟨ha, hb⟩ := h1
    norm_num at ha hb
    rcases hy with hy | hy <;> linarith
  · exfalso
    obtain ⟨ha, hb⟩ := h2
    norm_num at ha hb
    rcases hy with hy | hy <;> linarith
  · rfl

/-- Witness for C6 at year 1900. -/
theorem claim6_deltaT_range_witness :
    calcDeltaT ((1900 : ℤ) : ℚ) = 0
    ∧ calcDeltaT 1900 = 0
    ∧ (2005 < (2030 : ℚ) + 0.5 / 12 ∧ (2030 : ℚ) + 0.5 / 12 ≤ 2050)
    ∧ 0 < calcDeltaT 2030 :=
  claim6_deltaT_range 1900 (Or.inl (by norm_num))

/-- Counterexample to C7 as stated: at `halfBoundaryBirth` the scaled
pre-round value has an 8th-digit remainder of exactly one half, and
`calcJulianDate` keeps the floored value instead of rounding the 7th
decimal up as the claimed half-up rule would. -/
theorem claim7_counterexample :
    calcJulianDate halfBoundaryBirth ≠ roundHalfUp7 (julianPreRound halfBoundaryBirth) := by
  with_unfolding_all decide

/-- Claim C7 (amended): the returned Julian date is the pre-round value
rounded to 7 decimals, agreeing with the round-half-up rule whenever the
8th-digit remainder is not exactly one half; at exactly one half the code
truncates (strict `> 0.5` test) instead of rounding up. -/
theorem claim7_julian_rounding (bd : BirthData)
    (h : Int.fract (julianPreRound bd * 10000000) ≠ 1 / 2) :
    calcJulianDate bd = roundHalfUp7 (julianPreRound bd) := by
  unfold calcJulianDate round7 roundHalfUp7
  have hsf := Int.self_sub_floor (julianPreRound bd * 10000000)
  set v := julianPreRound bd * 10000000 with hv
  rcases lt_or_gt_of_ne h with hlt | hgt
  · have hfl : ⌊v + 1 / 2⌋ = ⌊v⌋ := by
      rw [Int.floor_eq_iff]
      constructor
      · linarith [Int.floor_le v]
      · linarith
    have hcond : ¬ (v - (⌊v⌋ : ℚ) > 0.5) := by
      rw [hsf]
      norm_num
      linarith
    rw [if_neg hcond, hfl]
  · have hfl : ⌊v + 1 / 2⌋ = ⌊v⌋ + 1 := by
      rw [Int.floor_eq_iff]
      constructor
      · push_cast
        linarith
      · push_cast
        have := Int.fract_lt_one v
        linarith
    have hcond : v - (⌊v⌋ : ℚ) > 0.5 := by
      rw [hsf]
      norm_num
      linarith
    rw [if_pos hcond, hfl]

/-- Witness for C7's amended statement at `sampleBirth` (whose 8th-digit
remainder is 0, not one half). -/
theorem claim7_julian_rounding_witness :
    calcJulianDate sampleBirth = roundHalfUp7 (julianPreRound sampleBirth) :=
  claim7_julian_rounding sampleBirth (by with_unfolding_all decide)

/-- Claim C8: the coordinate parsers are total (their embedding returns a
value — `none` standing for the JS number `NaN` — for every string, and
no exception path exists); concretely `"28N36"` parses to `28.6`,
`"77E12"` to `77.2`, `"12S0"` to `-12`, and the unparseable `"abc"`
defaults to `0`. -/
theorem claim8_coordinate_parsing :
    parseLatitude "28N36" = some 28.6
    ∧ parseLongitude "77E12" = some 77.2
    ∧ parseLatitude "12S0" = some (-12)
    ∧ parseLatitude "abc" = some 0 := by
  with_unfolding_all decide

/-- Claim C10: `calcPlanetPosition` returns 0 for every planet index
outside the seven tabulated mean-element bodies (indices 1-7); in
particular for the Ascendant (0), Rahu (8) and Ketu (9) slots. -/
theorem claim10_untabulated_planets_zero (p : ℤ) (dn : ℚ) (h : p < 1 ∨ 7 < p) :
    calcPlanetPosition p dn = 0 := by
  have hnone : meanElements p = none := by
    unfold meanElements SU MO MA ME JU VE SA
    split_ifs <;> first | rfl | (exfalso; omega)
  unfold calcPlanetPosition
  rw [hnone]

/-- Witness for C10 at the Rahu index. -/
theorem claim10_untabulated_planets_zero_witness : calcPlanetPosition 8 0 = 0 :=
  claim10_untabulated_planets_zero 8 0 (Or.inr (by norm_num))

theorem jsModQ_nonneg_eq (a b : ℚ) (ha : 0 ≤ a) (hb : 0 < b) :
    jsModQ a b = b * Int.fract (a / b) := by
  unfold jsModQ jsTrunc
  rw [if_pos (div_nonneg ha (le_of_lt hb)), ← Int.self_sub_floor]
  field_simp

theorem jsModQ_nonneg_bounds (a b : ℚ) (ha : 0 ≤ a) (hb : 0 < b) :
    0 ≤ jsModQ a b ∧ jsModQ a b < b := by
  rw [jsModQ_nonneg_eq a b ha hb]
  have h1 := Int.fract_nonneg (a / b)
  have h2 := Int.fract_lt_one (a / b)
  constructor
  · positivity
  · nlinarith

theorem jsRemInt_27_bounds (m : ℤ) (h : 0 ≤ m) :
    0 ≤ jsRemInt m 27 ∧ jsRemInt m 27 ≤ 26 := by
  unfold jsRemInt
  norm_num
  rcases eq_or_lt_of_le h with rfl | hpos
  · simp
  · rw [Int.sign_eq_one_iff_pos.mpr hpos]
    omega

theorem jsRemInt_add_27 (m : ℤ) (h : 0 ≤ m) :
    jsRemInt (m + 27) 27 = jsRemInt m 27 := by
  unfold jsRemInt
  norm_num
  rcases eq_or_lt_of_le h with rfl | hpos
  · decide
  · rw [Int.sign_eq_one_iff_pos.mpr hpos, Int.sign_eq_one_iff_pos.mpr (by omega : (0:ℤ) < m + 27),
      abs_of_nonneg (by omega : (0:ℤ) ≤ m + 27), abs_of_nonneg h]
    omega

theorem nakDegShift_nonneg (D : ℚ) (h : -360 ≤ D) :
    0 ≤ (if D < 0 then D + 360 else D) := by
  split_ifs with hD <;> linarith

theorem nakIndex_bounds (D : ℚ) (h : -360 ≤ D) :
    0 ≤ nakIndex D ∧ nakIndex D ≤ 26 := by
  unfold nakIndex
  exact jsRemInt_27_bounds _
    (Int.floor_nonneg.mpr (div_nonneg (nakDegShift_nonneg D h) (by norm_num)))

theorem nakPada_bounds (D : ℚ) (h : -360 ≤ D) :
    1 ≤ nakPada D ∧ nakPada D ≤ 4 := by
  unfold nakPada
  constructor
  · refine le_min ?_ (by norm_num)
    have hmod := jsModQ_nonneg_bounds (if D < 0 then D + 360 else D) 13.3333
      (nakDegShift_nonneg D h) (by norm_num)
    have hfl : (0:ℤ) ≤ ⌊jsModQ (if D < 0 then D + 360 else D) 13.3333 / 3.3333⌋ :=
      Int.floor_nonneg.mpr (div_nonneg hmod.1 (by norm_num))
    omega
  · exact min_le_right _ _

theorem calcNakshatra_name_mem (D : ℚ) (h : -360 ≤ D) :
    ∃ e ∈ nakshatras, (calcNakshatra D).name = some e.1 := by
  obtain ⟨h0, h26⟩ := nakIndex_bounds D h
  have hlt : (nakIndex D).toNat < nakshatras.length := by
    have h27 : nakshatras.length = 27 := rfl
    omega
  refine ⟨nakshatras.get ⟨(nakIndex D).toNat, hlt⟩, List.get_mem _ _ hlt, ?_⟩
  show (nakshatraEntry (nakIndex D)).map Prod.fst = _
  rw [nakshatraEntry, if_neg (not_lt.mpr h0), List.get?_eq_get hlt]
  rfl

theorem nakIndex_stable_neg (D : ℚ) (h : -360 ≤ D) (hneg : D < 0) :
    nakIndex (D + 360) = nakIndex D := by
  unfold nakIndex
  rw [if_pos hneg, if_neg (not_lt.mpr (by linarith : (0:ℚ) ≤ D + 360))]

theorem nakIndex_stable_pos (D : ℚ) (h0 : 0 ≤ D) (hcond : jsModQ D 13.3333 < 13.3324) :
    nakIndex (D + 360) = nakIndex D := by
  unfold nakIndex
  rw [if_neg (not_lt.mpr (by linarith : (0:ℚ) ≤ D + 360)), if_neg (not_lt.mpr h0)]
  have hfr : Int.fract (D / 13.3333) < 133324 / 133333 := by
    rw [jsModQ_nonneg_eq D 13.3333 h0 (by norm_num)] at hcond
    norm_num at hcond ⊢
    linarith
  have hsplit : (D + 360) / (13.3333 : ℚ) = D / 13.3333 + 9 / 133333 + (27 : ℤ) := by
    rw [show (13.3333 : ℚ) = 133333 / 10000 by norm_num]
    ring
  have hfl : ⌊(D + 360) / (13.3333 : ℚ)⌋ = ⌊D / (13.3333 : ℚ)⌋ + 27 := by
    rw [hsplit, Int.floor_add_int]
    congr 1
    rw [Int.floor_eq_iff]
    have hle := Int.floor_le (D / (13.3333 : ℚ))
    have hsub := Int.self_sub_floor (D / (13.3333 : ℚ))
    constructor
    · linarith
    · linarith
  rw [hfl]
  exact jsRemInt_add_27 _ (Int.floor_nonneg.mpr (div_nonneg h0 (by norm_num)))

/-- Counterexample to C5 as stated: at `D = 13.3332` (just below the first
nakshatra boundary) the nakshatra index of `D` and `D + 360` differ — the
code's span constant `13.3333` makes 27 spans equal `359.9991`, not `360` —
so the claimed invariance of the index under `D + 360` fails. -/
theorem claim5_counterexample :
    nakIndex (13.3332 : ℚ) ≠ nakIndex ((13.3332 : ℚ) + 360)
    ∧ (calcNakshatra (13.3332 : ℚ)).name ≠ (calcNakshatra ((13.3332 : ℚ) + 360)).name := by
  with_unfolding_all decide

/-- Claim C5 (amended): for every degree `D ≥ -360` (so that the single
`+360` normalization actually lands in nonnegative territory), the pada is
in `[1, 4]` (clamped at 4), the nakshatra index `⌊d / 13.3333⌋ % 27` lies
in `[0, 26]`, and the name is one of the 27 fixed table names; the index is
invariant under `D + 360` for negative `D`, and for nonnegative `D` only
when the position within the nakshatra (`d % 13.3333`) is below `13.3324`,
i.e. away from the `0.0009°` shortfall of `27 × 13.3333` versus `360`. -/
theorem claim5_nakshatra (D : ℚ) (h : -360 ≤ D) :
    (1 ≤ (calcNakshatra D).pada ∧ (calcNakshatra D).pada ≤ 4)
    ∧ (0 ≤ nakIndex D ∧ nakIndex D ≤ 26)
    ∧ (∃ e ∈ nakshatras, (calcNakshatra D).name = some e.1)
    ∧ (D < 0 → nakIndex (D + 360) = nakIndex D)
    ∧ (0 ≤ D → jsModQ D 13.3333 < 13.3324 → nakIndex (D + 360) = nakIndex D) :=
  ⟨nakPada_bounds D h, nakIndex_bounds D h, calcNakshatra_name_mem D h,
   fun hneg => nakIndex_stable_neg D h hneg,
   fun h0 hc => nakIndex_stable_pos D h0 hc⟩

/-- Witness for C5's amended statement at `D = 100`. -/
theorem claim5_nakshatra_witness :
    (1 ≤ (calcNakshatra (100 : ℚ)).pada ∧ (calcNakshatra (100 : ℚ)).pada ≤ 4)
    ∧ (0 ≤ nakIndex (100 : ℚ) ∧ nakIndex (100 : ℚ) ≤ 26)
    ∧ (∃ e ∈ nakshatras, (calcNakshatra (100 : ℚ)).name = some e.1)
    ∧ ((100 : ℚ) < 0 → nakIndex ((100 : ℚ) + 360) = nakIndex (100 : ℚ))
    ∧ (0 ≤ (100 : ℚ) → jsModQ (100 : ℚ) 13.3333 < 13.3324
        → nakIndex ((100 : ℚ) + 360) = nakIndex (100 : ℚ)) :=
  claim5_nakshatra 100 (by norm_num)

theorem sum_map_indicator (l : List ℕ) (z : ℕ) :
    (l.map (fun r => if r == z then 1 else 0)).sum = l.count z := by
  induction l with
  | nil => rfl
  | cons a t ih =>
    simp only [List.map_cons, List.sum_cons, List.count_cons]
    rw [ih]
    exact Nat.add_comm _ _

theorem count_name_filter (l : List Planet) (nm : String) (q : Planet → Bool) :
    ((l.filter q).map (fun p => p.name)).count nm
      = l.countP (fun p => q p && (p.name == nm)) := by
  induction l with
  | nil => rfl
  | cons a t ih =>
    by_cases hq : q a
    · simp only [List.filter_cons, hq, if_true, List.map_cons, List.count_cons,
        List.countP_cons, Bool.true_and, ih]
    · simp only [List.filter_cons, hq, if_false, List.countP_cons, Bool.false_and,
        ih]
      exact ih

theorem houses_count_generic (bd : BirthData) (tr : TransInputs) (nm : String) (z : ℕ)
    (hz : z ∈ Finset.Icc 1 12)
    (hcount : ∀ r : ℕ, (chartPlanets bd tr).countP
        (fun p => (r == p.rasizn) && (p.name == nm)) = if r == z then 1 else 0) :
    ((chartHouses bd tr).map (fun h => h.count nm)).sum = 1 := by
  unfold chartHouses
  rw [List.map_map]
  have hmap : ∀ r ∈ chartRashis bd tr,
      ((fun h => List.count nm h) ∘ fun r =>
        ((chartPlanets bd tr).filter (fun p => r == p.rasizn)).map (fun p => p.name)) r
      = (fun r => if r == z then 1 else 0) r := by
    intro r _
    simp only [Function.comp]
    rw [count_name_filter]
    exact hcount r
  rw [List.map_congr_left hmap, sum_map_indicator]
  exact calcRashis_count_one _ (calcZodiac_mem_Icc (ascDeg bd tr)) z hz

/-- Claim C9: in every chart, each of the 10 bodies' symbolic names occurs
exactly once across the 12 houses' body lists (the rotation assigns each
sign to exactly one house, and each body's sign is in `[1, 12]`). -/
theorem claim9_unique_house (bd : BirthData) (tr : TransInputs) :
    ∀ p ∈ (calculateChart bd tr).planets,
      (((calculateChart bd tr).houses).map (fun h => h.count p.name)).sum = 1 := by
  intro p hp
  have hp2 : p ∈ chartPlanets bd tr := hp
  have hhouses : (calculateChart bd tr).houses = chartHouses bd tr := rfl
  rw [hhouses]
  simp only [chartPlanets, List.mem_cons, List.not_mem_nil, or_false] at hp2
  rcases hp2 with rfl | rfl | rfl | rfl | rfl | rfl | rfl | rfl | rfl | rfl
  · exact houses_count_generic bd tr _ _ (calcZodiac_mem_Icc (ascDeg bd tr))
      (fun r => by simp [chartPlanets, mkBodyPlanet, ascPlanet, List.countP_cons])
  · exact houses_count_generic bd tr _ _ (calcZodiac_mem_Icc (sunDeg bd))
      (fun r => by simp [chartPlanets, mkBodyPlanet, ascPlanet, List.countP_cons])
  · exact houses_count_generic bd tr _ _ (calcZodiac_mem_Icc (moonDeg bd tr))
      (fun r => by simp [chartPlanets, mkBodyPlanet, ascPlanet, List.countP_cons])
  · exact houses_count_generic bd tr _ _ (calcZodiac_mem_Icc (marsDeg bd))
      (fun r => by simp [chartPlanets, mkBodyPlanet, ascPlanet, List.countP_cons])
  · exact houses_count_generic bd tr _ _ (calcZodiac_mem_Icc (mercDeg bd))
      (fun r => by simp [chartPlanets, mkBodyPlanet, ascPlanet, List.countP_cons])
  · exact houses_count_generic bd tr _ _ (calcZodiac_mem_Icc (jupDeg bd))
      (fun r => by simp [chartPlanets, mkBodyPlanet, ascPlanet, List.countP_cons])
  · exact houses_count_generic bd tr _ _ (calcZodiac_mem_Icc (venDeg bd))
      (fun r => by simp [chartPlanets, mkBodyPlanet, ascPlanet, List.countP_cons])
  · exact houses_count_generic bd tr _ _ (calcZodiac_mem_Icc (satDeg bd))
      (fun r => by simp [chartPlanets, mkBodyPlanet, ascPlanet, List.countP_cons])
  · exact houses_count_generic bd tr _ _ (calcZodiac_mem_Icc (rahuDeg bd))
      (fun r => by simp [chartPlanets, mkBodyPlanet, ascPlanet, List.countP_cons])
  · exact houses_count_generic bd tr _ _ (calcZodiac_mem_Icc (ketuDeg bd))
      (fun r => by simp [chartPlanets, mkBodyPlanet, ascPlanet, List.countP_cons])

/-- Witness for C9 at a concrete input, applied to the Ketu entry. -/
theorem claim9_unique_house_witness :
    (((calculateChart sampleBirth sampleTrans).houses).map
      (fun h => h.count (mkBodyPlanet "Ke" KE (ketuDeg sampleBirth)).name)).sum = 1 :=
  claim9_unique_house sampleBirth sampleTrans _ (by simp [calculateChart, chartPlanets])
